import Mathlib

/-!
Verification development for the agemin-sdk repository.

The definitions below are a shallow embedding of the SDK's TypeScript
source: `src/utils/dom.ts` (message channel / origin trust),
`src/utils/jwt.ts` (token validator), `src/utils/cookies.ts` (session
cache), `src/utils/device.ts` (agent classifier) and `src/core/Agemin.ts`
(verification orchestrator).  JavaScript strings are modelled as Lean
`String`, machine integers as `Int`, absent/`null` values as `Option`,
and the browser's single-threaded effectful execution as explicit state
passing with an effect record.
-/

/- ## Generic string helpers (JS `String.prototype.includes`, `endsWith`,
`toLowerCase`, `split`). -/

/-- `leadMatch needle hay` is true when `needle` is a leading segment of
`hay` (character-wise). -/
def leadMatch : List Char → List Char → Bool
  | [], _ => true
  | _ :: _, [] => false
  | a :: as, b :: bs => a = b && leadMatch as bs

/-- `listIncludes needle hay`: `needle` occurs contiguously inside `hay`.
Models JS `hay.includes(needle)`. -/
def listIncludes (needle : List Char) : List Char → Bool
  | [] => leadMatch needle []
  | c :: t => leadMatch needle (c :: t) || listIncludes needle t

/-- JS `hay.includes(needle)` on strings. -/
def strIncludes (hay needle : String) : Bool :=
  listIncludes needle.data hay.data

/-- JS `s.endsWith(suffix)`. -/
def strEndsWith (s suf : String) : Bool :=
  leadMatch suf.data.reverse s.data.reverse

/-- JS `s.toLowerCase()` (ASCII case folding; every string the SDK
compares case-insensitively is ASCII). -/
def lowerStr (s : String) : String :=
  ⟨s.data.map Char.toLower⟩

/-- Split a character list at every occurrence of `sep`
(JS `s.split(sep)`). -/
def splitOnChar (sep : Char) : List Char → List (List Char)
  | [] => [[]]
  | c :: t =>
    let r := splitOnChar sep t
    if c = sep then [] :: r
    else
      match r with
      | [] => [[c]]
      | h :: t2 => (c :: h) :: t2

/- ## Message channel (`src/utils/dom.ts`) -/

/-- The `trustedDomains` array of `isTrustedOrigin`. -/
def trustedDomains : List String :=
  ["agemin.com", "verify.agemin.com", "localhost"]

/-- `isTrustedOrigin(origin)`:
`trustedDomains.some(domain => origin.includes(domain))`. -/
def isTrustedOrigin (origin : String) : Bool :=
  trustedDomains.any (fun domain => strIncludes origin domain)

/-- The value of a `MessageEvent`'s `data` field as the SDK sees it:
either not an object, or an object whose `type` property may be absent. -/
inductive EventData where
  | notObject
  | obj (type : Option String)
deriving DecidableEq

/-- `parseMessage(event)`: returns the message when `event.data` is an
object with a truthy `type`, else `null`.  We return just the type tag
(the payload is passed through unchanged by the source). -/
def parseMessage : EventData → Option String
  | .notObject => none
  | .obj none => none
  | .obj (some t) => if t = "" then none else some t

/-- The string constants of the `MessageType` enum
(`src/types/events.ts`). -/
def MessageTypeSUCCESS : String := "agemin:verification:success"

def MessageTypeERROR : String := "agemin:verification:error"

def MessageTypeCANCEL : String := "agemin:verification:cancel"

def MessageTypeCLOSE : String := "agemin:verification:close"

def MessageTypeREADY : String := "agemin:verification:ready"

def MessageTypeRESIZE : String := "agemin:verification:resize"

def MessageTypeAPPREADY : String := "agemin:app:ready"

def MessageTypePROGRESS : String := "agemin:verification:progress"

def MessageTypeSTATECHANGE : String := "agemin:state:change"

def MessageTypeUSERACTION : String := "agemin:user:action"

def MessageTypeCONFIGRECEIVED : String := "agemin:config:received"

/-- Which orchestrator handler a dispatched message invokes. -/
inductive HandlerTag where
  | success | error | cancel | closeH | ready | resize
  | appReady | progress | stateChange | userAction | configReceived
deriving DecidableEq

/-- The `switch (message.type)` of `setupMessageListener`. An unknown
type falls through the switch and invokes nothing. -/
def dispatchMessage (t : String) : Option HandlerTag :=
  if t = MessageTypeSUCCESS then some .success
  else if t = MessageTypeERROR then some .error
  else if t = MessageTypeCANCEL then some .cancel
  else if t = MessageTypeCLOSE then some .closeH
  else if t = MessageTypeREADY then some .ready
  else if t = MessageTypeRESIZE then some .resize
  else if t = MessageTypeAPPREADY then some .appReady
  else if t = MessageTypePROGRESS then some .progress
  else if t = MessageTypeSTATECHANGE then some .stateChange
  else if t = MessageTypeUSERACTION then some .userAction
  else if t = MessageTypeCONFIGRECEIVED then some .configReceived
  else none

/-- The inbound `message` listener of `Agemin.setupMessageListener`:
drop the event unless `isTrustedOrigin(event.origin)`, then parse, then
dispatch on the type.  `none` means no handler runs and the orchestrator
state is untouched. -/
def onWindowMessage (origin : String) (data : EventData) : Option HandlerTag :=
  if !isTrustedOrigin origin then none
  else
    match parseMessage data with
    | none => none
    | some t => dispatchMessage t

/-- Modelled from the spec: the "fixed allow-list of verification-service
origins (production verification domain(s) plus local development
hosts)" that §4.4 and §6 say inbound messages are gated against, as a
set of exact origins. -/
def specTrustedOriginAllowList : List String :=
  ["https://agemin.com", "https://verify.agemin.com",
   "http://localhost", "https://localhost",
   "http://localhost:3000", "http://127.0.0.1"]

/- ## Token validator (`src/utils/jwt.ts`) -/

/-- The `localHosts` array appearing (twice) in `isValidDomain`. -/
def localHosts : List String :=
  ["localhost", "127.0.0.1", "::1", "[::1]", "0.0.0.0"]

/-- JS regex `/^[\d.]+$/` — one or more digits or dots
(the source's "IPv4" test). -/
def matchesDigitsDots (s : String) : Bool :=
  !s.data.isEmpty && s.data.all (fun c => c.isDigit || c = '.')

/-- JS regex `/^[\da-f:]+$/i` — one or more hex digits or colons,
case-insensitive (the source's "IPv6" test). -/
def matchesHexColons (s : String) : Bool :=
  !s.data.isEmpty && s.data.all (fun c =>
    c.isDigit || ('a' ≤ c && c ≤ 'f') || ('A' ≤ c && c ≤ 'F') || c = ':')

/-- The local-development test used by `isValidDomain`:
`localHosts.includes(h) || /^[\d.]+$/.test(h) || /^[\da-f:]+$/i.test(h)`. -/
def isLocalDevHost (h : String) : Bool :=
  localHosts.contains h || matchesDigitsDots h || matchesHexColons h

/-- JS `currentHostname.split(':')[0]` — everything before the first
colon. -/
def beforeColon (s : String) : String :=
  ⟨s.data.takeWhile (fun c => c ≠ ':')⟩

/-- JS truthiness of an optional string: `undefined` and `""` are falsy.
`jsTruthyStr o = some s` exactly when `o` holds a non-empty string. -/
def jsTruthyStr (o : Option String) : Option String :=
  match o with
  | none => none
  | some s => if s = "" then none else some s

/-- `isValidDomain(jwtDomain, currentHostname)` from `src/utils/jwt.ts`.
The `!jwtDomain` falsiness test is modelled by `jsTruthyStr`. -/
def isValidDomain (jwtDomain : Option String) (currentHostname : String) : Bool :=
  match jsTruthyStr jwtDomain with
  | none => isLocalDevHost currentHostname
  | some d =>
    if isLocalDevHost currentHostname then true
    else
      let normalizedCurrent := lowerStr (beforeColon currentHostname)
      let normalizedJWT := lowerStr d
      if normalizedJWT = normalizedCurrent then true
      else if strEndsWith normalizedCurrent ("." ++ normalizedJWT) then true
      else false

/-- The claim fields of a decoded token that `validateJWT` inspects:
`payload.data?.domain` and `payload.data?.is_of_age`. -/
structure ClaimsLite where
  domain : Option String
  is_of_age : Option Bool
deriving DecidableEq

/-- Outcome of `jwtVerify` (the jose library call): signature, expiry and
issuer checking happen inside the library, so we model its result — a
verified payload or a thrown error message. -/
inductive VerifyOutcome where
  | ok (payload : ClaimsLite)
  | err (message : String)
deriving DecidableEq

/-- The record returned by `validateJWT`. -/
structure VResult where
  isValid : Bool
  isOfAge : Bool
  error : Option String
deriving DecidableEq

/-- The `catch` branch of `validateJWT`: classify a jose error message
by substring. -/
def classifyJoseError (m : String) : String :=
  if strIncludes m "expired" then "JWT expired"
  else if strIncludes m "signature" then "Invalid signature"
  else if strIncludes m "claim" then "Invalid JWT claims"
  else m

/-- `validateJWT(token)` from `src/utils/jwt.ts`, with the jose
`jwtVerify` call abstracted into its outcome and
`window.location.hostname` passed explicitly. -/
def validateJWT (vo : VerifyOutcome) (currentHostname : String) : VResult :=
  match vo with
  | .err m => { isValid := false, isOfAge := false, error := some (classifyJoseError m) }
  | .ok payload =>
    if !isValidDomain payload.domain currentHostname then
      { isValid := false, isOfAge := false,
        error := some "JWT domain mismatch" }
    else
      { isValid := true, isOfAge := payload.is_of_age = some true, error := none }

/-- Modelled from the spec: the domain-binding rule as §4.1 (and claim
C2) states it — "if the claims carry no domain, validation succeeds only
when `currentHost` is a loopback/local address; otherwise it requires
exact match or `currentHost` being a dot-subdomain of the claimed
domain, case-insensitively, ignoring port". -/
def specDomainRule (jwtDomain : Option String) (currentHostname : String) : Bool :=
  match jsTruthyStr jwtDomain with
  | none => isLocalDevHost currentHostname
  | some d =>
    let normalizedCurrent := lowerStr (beforeColon currentHostname)
    let normalizedJWT := lowerStr d
    normalizedJWT = normalizedCurrent ||
      strEndsWith normalizedCurrent ("." ++ normalizedJWT)

/- ## Session cache (`src/utils/cookies.ts`) -/

/-- The `expires` attribute of a written cookie: absent (session cookie)
or an absolute timestamp in ms. -/
inductive ExpiresAttr where
  | session
  | absolute (ms : Int)
deriving DecidableEq

/-- The cookie record `setCookie` writes to `document.cookie`. -/
structure CookieWrite where
  name : String
  value : String
  expires : ExpiresAttr
  domainAttr : Option String
  secure : Bool
deriving DecidableEq

/-- `setCookie(name, value, expiresSeconds)` from
`src/utils/cookies.ts`; `window.location.hostname`, the https flag and
`Date.now()` (ms) are passed explicitly.  A negative `expiresSeconds`
falls through both branches of the `if`/`else if`, leaving `expires`
empty exactly like `null`/`0`. -/
def setCookie (hostname : String) (https : Bool) (nowMs : Int)
    (name value : String) (expiresSeconds : Option Int) : CookieWrite :=
  let expires : ExpiresAttr :=
    match expiresSeconds with
    | none => .session
    | some e =>
      if e = 0 then .session
      else if e > 0 then .absolute (nowMs + e * 1000)
      else .session
  let domainParts := splitOnChar '.' hostname.data
  let cookieDomain : Option String :=
    if hostname = "localhost" || matchesDigitsDots hostname then none
    else if domainParts.length ≥ 2 then
      some ("." ++ ⟨List.intercalate ['.'] (domainParts.drop (domainParts.length - 2))⟩)
    else none
  { name := name, value := value, expires := expires,
    domainAttr := cookieDomain, secure := https }

/- ## Agent classifier (`src/utils/device.ts`) -/

/-- The `searchEnginePatterns` array of `isUserAgentBot`. -/
def searchEnginePatterns : List String :=
  ["googlebot", "adsbot-google", "mediapartners-google",
   "google-inspectiontool", "googlesecurityscanner",
   "bingbot", "bingpreview", "msnbot", "adidxbot",
   "baiduspider", "baidu",
   "yandexbot", "yandex",
   "duckduckbot", "duckduckgo",
   "slurp",
   "facebookexternalhit", "facebookcatalog", "twitterbot", "linkedinbot",
   "whatsapp", "telegrambot", "discordbot", "slackbot",
   "applebot", "ahrefsbot", "semrushbot", "dotbot", "rogerbot",
   "seznambot", "petalbot", "mj12bot", "blexbot", "serpstatbot",
   "screaming frog",
   "bot", "crawler", "spider", "scraper"]

/-- The browser environment the classifier probes. `userAgent = none`
models a missing/empty `navigator.userAgent`; `languages = none` models
an undefined `navigator.languages`; `webgl = none` a missing debug-info
extension or context. -/
structure BotEnv where
  userAgent : Option String
  pluginsCount : Nat
  languages : Option (List String)
  webgl : Option (String × String)
  cookiesWork : Bool
deriving DecidableEq

/-- `isUserAgentBot()`: lowercase the user agent and test each pattern
with `includes`. -/
def isUserAgentBot (env : BotEnv) : Bool :=
  match env.userAgent with
  | none => false
  | some ua => searchEnginePatterns.any (fun p => strIncludes (lowerStr ua) p)

/-- `isHeadlessPlugins()`: `navigator.plugins.length === 0`. -/
def isHeadlessPlugins (env : BotEnv) : Bool :=
  env.pluginsCount = 0

/-- `isHeadlessLanguages()`: languages undefined or an empty list. -/
def isHeadlessLanguages (env : BotEnv) : Bool :=
  match env.languages with
  | none => true
  | some l => l.isEmpty

/-- `isHeadlessWebGL()`: the two software-rendering vendor/renderer
pairs; anything else (or no WebGL info) is not headless. -/
def isHeadlessWebGL (env : BotEnv) : Bool :=
  match env.webgl with
  | none => false
  | some (vendor, renderer) =>
    (vendor = "Brian Paul" && renderer = "Mesa OffScreen") ||
    (vendor = "Google Inc." && renderer = "Google SwiftShader")

/-- `isHeadlessBrowser()`: lazy OR of the three headless signals. -/
def isHeadlessBrowser (env : BotEnv) : Bool :=
  isHeadlessPlugins env || isHeadlessLanguages env || isHeadlessWebGL env

/-- `supportsCookies()` result (the write/read/delete probe abstracted to
its outcome). -/
def supportsCookies (env : BotEnv) : Bool :=
  env.cookiesWork

/-- The `switch (mode)` body of `isSearchEngineBot` — the uncached
classification. An unknown mode falls back to user-agent detection. -/
def computeBotResult (env : BotEnv) (mode : String) : Bool :=
  if mode = "ua" then isUserAgentBot env
  else if mode = "headless" then isHeadlessBrowser env
  else if mode = "cookies" then !supportsCookies env
  else if mode = "combined" then
    isUserAgentBot env || isHeadlessBrowser env || !supportsCookies env
  else if mode = "strict" then
    isUserAgentBot env && (isHeadlessBrowser env || !supportsCookies env)
  else isUserAgentBot env

/-- The module-level `cachedDetectionResult` memo: one
`{mode, result, timestamp}` triple or `null`. -/
structure BotCache where
  mode : String
  result : Bool
  timestamp : Int
deriving DecidableEq

/-- `CACHE_DURATION` (ms). -/
def CACHEDURATION : Int := 60000

/-- `isSearchEngineBot(mode)` as a step on the memo state: returns the
result, the new memo, and whether the cached value was returned
(cache hit). -/
def isSearchEngineBot (env : BotEnv) (nowMs : Int) (mode : String)
    (cache : Option BotCache) : Bool × Option BotCache × Bool :=
  match cache with
  | some c =>
    if c.mode = mode && nowMs - c.timestamp < CACHEDURATION then
      (c.result, some c, true)
    else
      let result := computeBotResult env mode
      (result, some { mode := mode, result := result, timestamp := nowMs }, false)
  | none =>
    let result := computeBotResult env mode
    (result, some { mode := mode, result := result, timestamp := nowMs }, false)

/- ## Verification orchestrator (`src/core/Agemin.ts`, window-registry
version) -/

/-- Which of the six per-attempt callbacks are registered on
`this.callbacks`. -/
structure CallbackSet where
  onSuccess : Bool
  onAgePass : Bool
  onAgeFail : Bool
  onError : Bool
  onCancel : Bool
  onClose : Bool
deriving DecidableEq

/-- `this.callbacks = {}`. -/
def emptyCallbacks : CallbackSet :=
  { onSuccess := false, onAgePass := false, onAgeFail := false,
    onError := false, onCancel := false, onClose := false }

/-- The observable orchestration state: the `window.__AGEMIN__` globals
the handlers touch, the static `Agemin.isVerificationActive` flag, the
instance's `this.callbacks`, and whether the `agemin-iframe` element is
in the DOM.  The promise is identified by a number; `hasResolve` /
`hasReject` model the stored `verificationResolve` / `verificationReject`
handles being non-null. -/
structure GState where
  isVerifying : Bool
  isVerificationActive : Bool
  promiseId : Option Nat
  hasResolve : Bool
  hasReject : Bool
  referenceId : Option String
  iframeInDom : Bool
  callbacks : CallbackSet
deriving DecidableEq

/-- The redirect URLs of `this.config` read by the terminal handlers. -/
structure UrlConfig where
  successUrl : Option String
  errorUrl : Option String
  cancelUrl : Option String
deriving DecidableEq

/-- The `data.exp` field of a success payload: absent (`undefined`),
`null`, or a number (epoch seconds). -/
inductive ExpVal where
  | undef
  | nullv
  | num (e : Int)
deriving DecidableEq

/-- The payload of a terminal `success` message:
`data.jwt` and `data.exp`. -/
structure SuccessData where
  jwt : Option String
  exp : ExpVal
deriving DecidableEq

/-- JS truthiness of `data?.jwt` (absent or empty string is falsy). -/
def jwtTruthy (d : SuccessData) : Bool :=
  match d.jwt with
  | none => false
  | some j => !(j = "")

/-- Everything observable a terminal handler does: cookie writes,
promise settlement, callback invocations, navigation, surface close. -/
structure TermEffects where
  cookieWrites : List (String × Option Int)
  resolvedWith : Option Bool
  rejected : Bool
  calledOnSuccess : Bool
  calledOnAgePass : Bool
  calledOnAgeFail : Bool
  calledOnError : Bool
  calledOnCancel : Bool
  calledOnClose : Bool
  closedSurface : Bool
  navigatedTo : Option String
deriving DecidableEq

/-- Effects record with nothing happened. -/
def noEffects : TermEffects :=
  { cookieWrites := [], resolvedWith := none, rejected := false,
    calledOnSuccess := false, calledOnAgePass := false,
    calledOnAgeFail := false, calledOnError := false,
    calledOnCancel := false, calledOnClose := false,
    closedSurface := false, navigatedTo := none }

/-- The decoded view `handleSuccess` takes of a token: the
`data?.is_of_age` field of `decodeJWT`'s result (`none` when the `data`
claim is absent). -/
structure DecodedLite where
  is_of_age : Option Bool
deriving DecidableEq

/-- The tail common to `handleSuccess`, `handleError` and
`handleCancel`: reset every `window.__AGEMIN__` verification global and
clear `Agemin.isVerificationActive`. -/
def resetGlobals (s : GState) : GState :=
  { s with
    isVerifying := false, promiseId := none, referenceId := none,
    hasResolve := false, hasReject := false, isVerificationActive := false }

/-- `Agemin.handleSuccess(data)`. `decode` models `decodeJWT` (a pure
parse that never throws), `nowSec` models
`Math.floor(Date.now() / 1000)`.  Mirrors the source order: decode for
the `isOfAge` hint, store the cookie, `this.close()` (which clears
`this.callbacks` via `cleanup`), callback checks on the now-cleared
callbacks, navigation, promise resolution, global reset. -/
def handleSuccess (decode : String → Option DecodedLite) (nowSec : Int)
    (cfg : UrlConfig) (d : SuccessData) (s : GState) : GState × TermEffects :=
  -- let isOfAge: boolean | null = null, then decode if data?.jwt
  let isOfAge : Option Bool :=
    if jwtTruthy d then
      match d.jwt with
      | some j =>
        match decode j with
        | some dec => some (dec.is_of_age = some true)
        | none => none
      | none => none
    else none
  -- cookie storage: if (data?.exp !== undefined && data?.jwt)
  let cookieWrites : List (String × Option Int) :=
    if jwtTruthy d then
      match d.jwt with
      | some j =>
        match d.exp with
        | .undef => []
        | .nullv => [(j, none)]
        | .num e =>
          let secondsUntilExpiration := e - nowSec
          if e = 0 || secondsUntilExpiration ≤ 0 then [(j, none)]
          else [(j, some secondsUntilExpiration)]
      | none => []
    else []
  -- this.close(): modal.close() plus this.cleanup() (callbacks := {})
  let s1 : GState := { s with callbacks := emptyCallbacks, iframeInDom := false }
  -- callback checks now read the cleared this.callbacks
  let calledOnSuccess := s1.callbacks.onSuccess
  let calledOnAgePass :=
    match isOfAge with
    | some true => s1.callbacks.onAgePass
    | _ => false
  let calledOnAgeFail :=
    match isOfAge with
    | some false => s1.callbacks.onAgeFail
    | _ => false
  -- navigation when the age result is known and a URL is configured
  let navigatedTo : Option String :=
    if isOfAge = some true then cfg.successUrl
    else if isOfAge = some false then cfg.errorUrl
    else none
  -- resolve via the global handle (untouched by cleanup)
  let resolvedWith : Option Bool :=
    if s.hasResolve then some (isOfAge = some true) else none
  (resetGlobals s1,
   { noEffects with
     cookieWrites := cookieWrites, resolvedWith := resolvedWith,
     calledOnSuccess := calledOnSuccess, calledOnAgePass := calledOnAgePass,
     calledOnAgeFail := calledOnAgeFail, closedSurface := true,
     navigatedTo := navigatedTo })

/-- `Agemin.handleError(error)`: `this.close()` first (clearing
`this.callbacks`), then the `onError` check on the cleared set, error
navigation, promise rejection via the global handle, global reset. -/
def handleError (cfg : UrlConfig) (s : GState) : GState × TermEffects :=
  let s1 : GState := { s with callbacks := emptyCallbacks, iframeInDom := false }
  let calledOnError := s1.callbacks.onError
  (resetGlobals s1,
   { noEffects with
     calledOnError := calledOnError, closedSurface := true,
     navigatedTo := cfg.errorUrl, rejected := s.hasReject })

/-- `Agemin.handleCancel()`: `this.cleanup()` first (clearing
`this.callbacks`; the modal is not closed here — it invoked this
handler), then the `onCancel`/`onClose` checks on the cleared set,
cancel navigation, promise rejection, global reset. -/
def handleCancel (cfg : UrlConfig) (s : GState) : GState × TermEffects :=
  let s1 : GState := { s with callbacks := emptyCallbacks }
  let calledOnCancel := s1.callbacks.onCancel
  let calledOnClose := s1.callbacks.onClose
  (resetGlobals s1,
   { noEffects with
     calledOnCancel := calledOnCancel, calledOnClose := calledOnClose,
     navigatedTo := cfg.cancelUrl, rejected := s.hasReject })

/-- Outcome of `verifyAndWait`: the caller got the already-pending
promise, a rejected "Modal exists but no promise found" promise, a fresh
attempt with a newly opened modal, or a redirect navigation (whose
promise resolves `false` at once). -/
inductive VwOutcome where
  | existingPromise (p : Nat)
  | rejectedNoPromise
  | openedNew (p : Nat)
  | redirected (p : Nat)
deriving DecidableEq

/-- The verification mode of `VerifyOptions`. -/
inductive VMode where
  | modal
  | redirect
deriving DecidableEq

/-- `Agemin.verifyAndWait(options)`: dedup on the `agemin-iframe` DOM
check and on the global `verificationPromise`, otherwise create the
promise, store the handles, callbacks and referenceId globally, open
the surface (or navigate for redirect mode), and store the promise
globally.  `fresh` is the identity of the newly created promise;
`Modal.openIframe` has no failure path in the source (it only appends
DOM nodes), so the `catch` branch is unreachable and not modelled. -/
def verifyAndWait (fresh : Nat) (rid : String) (cbs : CallbackSet)
    (mode : VMode) (s : GState) : GState × VwOutcome :=
  if s.iframeInDom then
    match s.promiseId with
    | some p => (s, .existingPromise p)
    | none => (s, .rejectedNoPromise)
  else
    match s.promiseId with
    | some p => (s, .existingPromise p)
    | none =>
      let s1 : GState :=
        { s with
          hasResolve := true, hasReject := true, isVerifying := true,
          callbacks := cbs, referenceId := some rid, promiseId := some fresh }
      match mode with
      | .redirect =>
        -- window.location.href = url; resolve(false) settles the promise but
        -- leaves the stored verificationResolve handle in place
        (s1, .redirected fresh)
      | .modal =>
        ({ s1 with iframeInDom := true }, .openedNew fresh)

/-- What the synchronous guard section of `Agemin.validateSession`
(lines 332–355) does before any session-cache work: return the pending
promise, return `false`, or fall through to `doValidateSession`. -/
inductive VsGuard where
  | returnExisting (p : Nat)
  | returnFalse
  | proceed
deriving DecidableEq

/-- The dedup guards at the top of `Agemin.validateSession`: the static
`Agemin.isVerificationActive` check, then the `agemin-iframe` DOM
check, each returning the existing global promise when present. -/
def validateSessionGuard (s : GState) : VsGuard :=
  if s.isVerificationActive then
    match s.promiseId with
    | some p => .returnExisting p
    | none => .returnFalse
  else if s.iframeInDom then
    match s.promiseId with
    | some p => .returnExisting p
    | none => .returnFalse
  else .proceed

/- ## Constructor validation (`Agemin.constructor`) -/

/-- The classified construction-time errors the constructor throws. -/
inductive CtorErr where
  | missingAssetId
  | missingReferenceId
  | referenceIdTooLong (bytes : Nat)
  | metadataTooLong (bytes : Nat)
  | browserUnsupported
deriving DecidableEq

/-- How a `new Agemin(config)` call ends. -/
inductive CtorOutcome where
  | throwsErr (e : CtorErr)
  | adoptsExisting (newReferenceId : String) (newMetadata : Option String)
  | raceTemp
  | created
deriving DecidableEq

/-- The caller-supplied identity config; `metadata` is modelled by its
`JSON.stringify` serialization (`none` = not provided). An empty
`assetId`/`referenceId` string models a missing (falsy) value. -/
structure CtorConfig where
  assetId : String
  referenceId : String
  metadata : Option String
deriving DecidableEq

/-- `new TextEncoder().encode(s).length` — the UTF-8 byte length. -/
def utf8Len (s : String) : Nat :=
  s.utf8ByteSize

/-- `Agemin.constructor(config)` (window-registry version), as a
function of whether an instance for `config.assetId` is already
registered, whether creation is in progress for it, and whether the
browser is supported.  Mirrors the source order: the assetId check, the
existing-instance early return (which adopts the new `referenceId` and
`metadata` without any validation), the creation-in-progress race path,
then — for a fresh construction — the referenceId presence and size
checks, the metadata size check, and the environment check. -/
def ageminConstructor (existingInstance : Bool) (creationInProgress : Bool)
    (browserSupported : Bool) (cfg : CtorConfig) : CtorOutcome :=
  if cfg.assetId = "" then .throwsErr .missingAssetId
  else if existingInstance then .adoptsExisting cfg.referenceId cfg.metadata
  else if creationInProgress then .raceTemp
  else if cfg.referenceId = "" then .throwsErr .missingReferenceId
  else if utf8Len cfg.referenceId > 50 then
    .throwsErr (.referenceIdTooLong (utf8Len cfg.referenceId))
  else
    match cfg.metadata with
    | some m =>
      if utf8Len m > 256 then .throwsErr (.metadataTooLong (utf8Len m))
      else if !browserSupported then .throwsErr .browserUnsupported
      else .created
    | none =>
      if !browserSupported then .throwsErr .browserUnsupported
      else .created

/- ## Helper lemmas about the string model -/

theorem leadMatch_iff (n h : List Char) : leadMatch n h = true ↔ n <+: h := by
  induction n generalizing h with
  | nil => simp [leadMatch]
  | cons a as ih =>
    cases h with
    | nil => simp [leadMatch]
    | cons b bs => simp [leadMatch, ih, List.cons_prefix_cons]

theorem listIncludes_iff (n h : List Char) : listIncludes n h = true ↔ n <:+: h := by
  induction h with
  | nil => simp [listIncludes, leadMatch_iff]
  | cons c t ih =>
    simp [listIncludes, leadMatch_iff, ih, List.infix_cons_iff]

/-- JS `includes` respects substring containment of the needle. -/
theorem strIncludes_mono (o a b : String) (hab : a.data <:+: b.data)
    (h : strIncludes o b = true) : strIncludes o a = true := by
  rw [strIncludes, listIncludes_iff] at h ⊢
  exact hab.trans h

/-- `isTrustedOrigin` is exactly a substring test for `"agemin.com"` or
`"localhost"` (the `"verify.agemin.com"` entry is subsumed because any
string containing it also contains `"agemin.com"`). -/
theorem isTrustedOrigin_eq_substring_test (o : String) :
    isTrustedOrigin o = (strIncludes o "agemin.com" || strIncludes o "localhost") := by
  have hsub : "agemin.com".data <:+: "verify.agemin.com".data := by decide
  have he : isTrustedOrigin o =
      (strIncludes o "agemin.com" ||
        (strIncludes o "verify.agemin.com" || (strIncludes o "localhost" || false))) := rfl
  rw [he]
  cases hv : strIncludes o "verify.agemin.com" with
  | false => simp
  | true =>
    have ha := strIncludes_mono o "agemin.com" "verify.agemin.com" hsub hv
    simp [ha]

/- ## Shared concrete fixtures -/

/-- All six per-attempt callbacks registered. -/
def allCallbacks : CallbackSet :=
  { onSuccess := true, onAgePass := true, onAgeFail := true,
    onError := true, onCancel := true, onClose := true }

/-- A state in the middle of a pending modal attempt: promise 1 stored
with live resolve/reject handles, the iframe mounted, both busy flags
set, all callbacks registered. -/
def pendingState : GState :=
  { isVerifying := true, isVerificationActive := true, promiseId := some 1,
    hasResolve := true, hasReject := true, referenceId := some "ref-1",
    iframeInDom := true, callbacks := allCallbacks }

/-- No redirect URLs configured. -/
def noUrls : UrlConfig :=
  { successUrl := none, errorUrl := none, cancelUrl := none }

/- ## Claim C1 -/

/-- Claim C1, as stated, is false: `isTrustedOrigin` does a substring
test, so the foreign origin `https://agemin.com.evil.example` — which is
not in any fixed allow-list of verification-service origins — is
trusted, and a success message from it is dispatched to the handlers. -/
theorem C1_counterexample :
    isTrustedOrigin "https://agemin.com.evil.example" = true ∧
    specTrustedOriginAllowList.contains "https://agemin.com.evil.example" = false ∧
    onWindowMessage "https://agemin.com.evil.example"
      (.obj (some MessageTypeSUCCESS)) = some .success := by
  decide

/-- Claim C1, amended: every inbound window message reaches the
orchestrator's handlers only if `isTrustedOrigin origin` holds (an
untrusted origin is dropped with no effect), but `isTrustedOrigin` is a
substring containment test — it is true exactly when the origin string
contains `"agemin.com"` or `"localhost"` as a substring — rather than
membership in a fixed allow-list of origins. -/
theorem C1_claim :
    (∀ origin data, isTrustedOrigin origin = false →
      onWindowMessage origin data = none) ∧
    (∀ origin, isTrustedOrigin origin =
      (strIncludes origin "agemin.com" || strIncludes origin "localhost")) := by
  constructor
  · intro origin data h
    unfold onWindowMessage
    simp [h]
  · intro origin
    exact isTrustedOrigin_eq_substring_test origin

/-- Witness for `C1_claim` at a concrete untrusted origin. -/
theorem C1_witness :
    isTrustedOrigin "https://evil.example" = false ∧
    onWindowMessage "https://evil.example" (.obj (some MessageTypeSUCCESS)) = none :=
  ⟨by decide, C1_claim.1 "https://evil.example" (.obj (some MessageTypeSUCCESS)) (by decide)⟩

/- ## Claim C2 -/

/-- Claim C2, as stated, is false: a token whose claims carry the domain
`example.com` passes `isValidDomain` — and full `validateJWT` — on the
current host `localhost`, although `localhost` neither equals
`example.com` nor is a dot-subdomain of it; the code skips the domain
check entirely whenever the current host looks local. -/
theorem C2_counterexample :
    isValidDomain (some "example.com") "localhost" = true ∧
    specDomainRule (some "example.com") "localhost" = false ∧
    (validateJWT (.ok { domain := some "example.com", is_of_age := some true })
      "localhost").isValid = true := by
  decide

/-- Claim C2, amended: when the current host is a loopback/local-looking
address the domain check is skipped entirely, so a signature-valid token
always validates there regardless of its domain claim; on any other
host, a signature-valid token validates exactly when its claims carry a
non-empty domain that equals the (port-stripped, lowercased) current
host or of which the current host is a dot-subdomain — in particular a
token whose domain claim does not match fails validation even though its
signature is valid. -/
theorem C2_claim (p : ClaimsLite) (host : String) :
    (isLocalDevHost host = true → (validateJWT (.ok p) host).isValid = true) ∧
    (isLocalDevHost host = false →
      ((validateJWT (.ok p) host).isValid = true ↔
        ∃ d, p.domain = some d ∧ d ≠ "" ∧
          (lowerStr d = lowerStr (beforeColon host) ∨
            strEndsWith (lowerStr (beforeColon host)) ("." ++ lowerStr d) = true))) := by
  obtain ⟨pd, page⟩ := p
  constructor
  · intro hl
    cases pd with
    | none => simp [validateJWT, isValidDomain, jsTruthyStr, hl]
    | some d =>
      by_cases he : d = "" <;>
        simp [validateJWT, isValidDomain, jsTruthyStr, he, hl]
  · intro hl
    cases pd with
    | none => simp [validateJWT, isValidDomain, jsTruthyStr, hl]
    | some d =>
      by_cases he : d = ""
      · simp [validateJWT, isValidDomain, jsTruthyStr, he, hl]
      · constructor
        · intro hv
          refine ⟨d, rfl, he, ?_⟩
          by_contra hnot
          push_neg at hnot
          obtain ⟨h1, h2⟩ := hnot
          simp [validateJWT, isValidDomain, jsTruthyStr, he, hl, h1, h2] at hv
        · rintro ⟨d2, hd2, he2, hm⟩
          simp only [Option.some.injEq] at hd2
          subst hd2
          rcases hm with hm | hm <;>
            simp [validateJWT, isValidDomain, jsTruthyStr, he, hl, hm]

/-- Witness for `C2_claim`: a token bound to `example.com` validates
on the non-local host `shop.example.com` (a dot-subdomain). -/
theorem C2_witness :
    isLocalDevHost "shop.example.com" = false ∧
    (validateJWT (.ok { domain := some "example.com", is_of_age := some true })
      "shop.example.com").isValid = true :=
  ⟨by decide,
    ((C2_claim { domain := some "example.com", is_of_age := some true }
        "shop.example.com").2 (by decide)).2
      ⟨"example.com", rfl, by decide, Or.inr (by decide)⟩⟩

/- ## Claim C3 -/

/-- Claim C3, as stated, is false: on a success message `handleSuccess`
writes the token to the session cookie without any validation — here a
token that cannot even be decoded (so it certainly fails full
validation) is persisted. -/
theorem C3_counterexample :
    (handleSuccess (fun _ => none) 0 noUrls
      { jwt := some "not-a-valid-token", exp := .num 100 }
      pendingState).2.cookieWrites = [("not-a-valid-token", some 100)] ∧
    (fun _ => (none : Option DecodedLite)) "not-a-valid-token" = none := by
  constructor
  · decide
  · rfl

/-- Claim C3, amended: on a terminal success message the token is
decoded without trust only to extract the `isOfAge` hint, but it is
persisted to the Session Cache without passing through full validation:
the cookie write is entirely independent of the decode result (hence of
any validation outcome) and happens exactly when the payload carries a
truthy `jwt` and a present `exp`; full validation only happens later
when `validateSession` reads the cache back. -/
theorem C3_claim (dec1 dec2 : String → Option DecodedLite) (now : Int)
    (cfg : UrlConfig) (d : SuccessData) (s : GState) :
    (handleSuccess dec1 now cfg d s).2.cookieWrites =
      (handleSuccess dec2 now cfg d s).2.cookieWrites ∧
    ((handleSuccess dec1 now cfg d s).2.cookieWrites ≠ [] ↔
      jwtTruthy d = true ∧ d.exp ≠ .undef) := by
  constructor
  · rfl
  · obtain ⟨jwt, exp⟩ := d
    cases jwt with
    | none => simp [handleSuccess, jwtTruthy]
    | some j =>
      by_cases hj : j = ""
      · simp [handleSuccess, jwtTruthy, hj]
      · cases exp with
        | undef => simp [handleSuccess, jwtTruthy, hj]
        | nullv => simp [handleSuccess, jwtTruthy, hj]
        | num e =>
          by_cases hc : e = 0 ∨ e ≤ now <;>
            simp [handleSuccess, jwtTruthy, hj, hc]

/- ## Claim C4 -/

/-- Claim C4 names real intent but the code violates it: on a terminal
error with `onError` registered and a live reject handle, `handleError`
runs `this.close()` — whose `cleanup` replaces `this.callbacks` with an
empty object — before reading `this.callbacks.onError`, so the `onError`
callback is never invoked; only the promise rejection side happens. -/
theorem C4_claim :
    pendingState.callbacks.onError = true ∧
    (handleError noUrls pendingState).2.calledOnError = false ∧
    (handleError noUrls pendingState).2.rejected = true := by
  decide

/- ## Claim C5 -/

/-- Claim C5: while an attempt is pending (the global promise exists and
either its surface is mounted or `isVerificationActive` is set), a
second call to `verifyAndWait` — for any options — and a second call to
`validateSession` both return the first caller's pending promise
unchanged: the state is untouched and no new surface is opened. -/
theorem C5_claim (s : GState) (p fresh : Nat) (rid : String)
    (cbs : CallbackSet) (mode : VMode)
    (hp : s.promiseId = some p)
    (hpend : s.iframeInDom = true ∨ s.isVerificationActive = true) :
    verifyAndWait fresh rid cbs mode s = (s, .existingPromise p) ∧
    validateSessionGuard s = .returnExisting p := by
  constructor
  · cases hif : s.iframeInDom <;> simp [verifyAndWait, hif, hp]
  · rcases hpend with h | h
    · cases hact : s.isVerificationActive <;>
        simp [validateSessionGuard, hact, h, hp]
    · simp [validateSessionGuard, h, hp]

/-- Witness for `C5_claim` at the concrete pending state. -/
theorem C5_witness :
    verifyAndWait 2 "ref-2" emptyCallbacks .modal pendingState =
      (pendingState, .existingPromise 1) ∧
    validateSessionGuard pendingState = .returnExisting 1 :=
  C5_claim pendingState 1 2 "ref-2" emptyCallbacks .modal (by decide) (Or.inl (by decide))

/- ## Claim C6 -/

/-- A 50-byte ASCII referenceId (accepted boundary). -/
def refId50 : String := "aaaaaaaaaaaaaaaaaaaaaaaaaaaaaaaaaaaaaaaaaaaaaaaaaa"

/-- A 51-byte ASCII referenceId (rejected boundary). -/
def refId51 : String := "aaaaaaaaaaaaaaaaaaaaaaaaaaaaaaaaaaaaaaaaaaaaaaaaaaa"

/-- A serialized metadata object of exactly 256 UTF-8 bytes
(254 payload bytes plus the two braces of \x7b...\x7d). -/
def meta256 : String := "\x7bbbbbbbbbbbbbbbbbbbbbbbbbbbbbbbbbbbbbbbbbbbbbbbbbbbbbbbbbbbbbbbbbbbbbbbbbbbbbbbbbbbbbbbbbbbbbbbbbbbbbbbbbbbbbbbbbbbbbbbbbbbbbbbbbbbbbbbbbbbbbbbbbbbbbbbbbbbbbbbbbbbbbbbbbbbbbbbbbbbbbbbbbbbbbbbbbbbbbbbbbbbbbbbbbbbbbbbbbbbbbbbbbbbbbbbbbbbbbbbbbbbbbbbbbbbbbbb\x7d"

/-- A serialized metadata object of exactly 257 UTF-8 bytes. -/
def meta257 : String := "\x7bbbbbbbbbbbbbbbbbbbbbbbbbbbbbbbbbbbbbbbbbbbbbbbbbbbbbbbbbbbbbbbbbbbbbbbbbbbbbbbbbbbbbbbbbbbbbbbbbbbbbbbbbbbbbbbbbbbbbbbbbbbbbbbbbbbbbbbbbbbbbbbbbbbbbbbbbbbbbbbbbbbbbbbbbbbbbbbbbbbbbbbbbbbbbbbbbbbbbbbbbbbbbbbbbbbbbbbbbbbbbbbbbbbbbbbbbbbbbbbbbbbbbbbbbbbbbbbb\x7d"

/-- Claim C6, as stated, is false: when an instance for the assetId
already exists, the constructor adopts the new referenceId (here 51
UTF-8 bytes, over the limit) and metadata without any validation instead
of failing synchronously. -/
theorem C6_counterexample :
    ageminConstructor true false true
      { assetId := "asset_1", referenceId := refId51, metadata := none } =
      .adoptsExisting refId51 none ∧
    utf8Len refId51 = 51 := by
  constructor
  · decide
  · decide


/-- Claim C6, amended: on a fresh construction (no existing instance, no
creation in progress) the validation holds exactly as claimed — assetId
and referenceId must be non-empty, the referenceId may be at most 50
UTF-8 bytes and the serialized metadata at most 256, with classified
errors on violation and no truncation; but when an instance for the
assetId already exists, the new referenceId/metadata are adopted with no
validation at all and construction never throws (beyond the assetId
presence check). -/
theorem C6_claim (cfg : CtorConfig) :
    (ageminConstructor false false true cfg = .created ↔
      cfg.assetId ≠ "" ∧ cfg.referenceId ≠ "" ∧ utf8Len cfg.referenceId ≤ 50 ∧
        (∀ m, cfg.metadata = some m → utf8Len m ≤ 256)) ∧
    (cfg.assetId ≠ "" → cfg.referenceId ≠ "" → utf8Len cfg.referenceId > 50 →
      ageminConstructor false false true cfg =
        .throwsErr (.referenceIdTooLong (utf8Len cfg.referenceId))) ∧
    (∀ m, cfg.assetId ≠ "" → cfg.referenceId ≠ "" → utf8Len cfg.referenceId ≤ 50 →
      cfg.metadata = some m → utf8Len m > 256 →
      ageminConstructor false false true cfg =
        .throwsErr (.metadataTooLong (utf8Len m))) ∧
    (cfg.assetId ≠ "" → ∀ ip sup e, ageminConstructor true ip sup cfg ≠ .throwsErr e) := by
  obtain ⟨aid, rid, meta⟩ := cfg
  refine ⟨?_, ?_, ?_, ?_⟩
  · by_cases ha : aid = ""
    · simp [ageminConstructor, ha]
    · by_cases hr : rid = ""
      · simp [ageminConstructor, ha, hr]
      · by_cases hlen : utf8Len rid > 50
        · simp only [ageminConstructor, ha, hr, hlen]
          simp [ha, hr]
          intro h
          omega
        · cases meta with
          | none =>
            simp [ageminConstructor, ha, hr, hlen]
            omega
          | some m =>
            by_cases hm : utf8Len m > 256
            · simp [ageminConstructor, ha, hr, hlen, hm]
            · simp [ageminConstructor, ha, hr, hlen, hm]
              omega
  · intro ha hr hlen
    simp [ageminConstructor, ha, hr, hlen]
  · intro m ha hr hlen hm hbig
    subst hm
    simp [ageminConstructor, ha, hr, Nat.not_lt.mpr hlen, hbig]
  · intro ha ip sup e
    simp [ageminConstructor, ha]

set_option maxRecDepth 4096 in
/-- Witness for `C6_claim` at the accepted boundaries: a 50-byte
referenceId with 256-byte serialized metadata constructs successfully,
and with an existing instance even a 51-byte referenceId does not
throw. -/
theorem C6_witness :
    ageminConstructor false false true
      { assetId := "asset_1", referenceId := refId50, metadata := some meta256 } =
      .created ∧
    ageminConstructor true false true
      { assetId := "asset_1", referenceId := refId51, metadata := none } ≠
      .throwsErr (.referenceIdTooLong 51) :=
  ⟨(C6_claim _).1.mpr
      ⟨by decide, by decide, by decide, fun m hm => by
        injection hm with hm2
        subst hm2
        decide⟩,
    (C6_claim { assetId := "asset_1", referenceId := refId51, metadata := none }).2.2.2
      (by decide) false true (.referenceIdTooLong 51)⟩

/- ## Claim C7 -/

/-- Claim C7, as stated, is false: processing a second `success` message
for the same attempt does have an additional observable effect — the
session cookie is written again (the handlers are not gated on a pending
attempt), even though the promise is not settled a second time. -/
theorem C7_counterexample :
    (handleSuccess (fun _ => some { is_of_age := some true }) 0 noUrls
        { jwt := some "tok", exp := .num 1000 } pendingState).2.cookieWrites =
      [("tok", some 1000)] ∧
    (handleSuccess (fun _ => some { is_of_age := some true }) 0 noUrls
        { jwt := some "tok", exp := .num 1000 }
        (handleSuccess (fun _ => some { is_of_age := some true }) 0 noUrls
          { jwt := some "tok", exp := .num 1000 } pendingState).1).2.cookieWrites =
      [("tok", some 1000)] ∧
    (handleSuccess (fun _ => some { is_of_age := some true }) 0 noUrls
        { jwt := some "tok", exp := .num 1000 }
        (handleSuccess (fun _ => some { is_of_age := some true }) 0 noUrls
          { jwt := some "tok", exp := .num 1000 } pendingState).1).2.resolvedWith =
      none := by
  refine ⟨by decide, by decide, by decide⟩

/-- Claim C7, amended: every terminal handler clears the global
resolve/reject handles, and on a state whose handles are already cleared
no terminal handler settles the promise again — so the promise is never
resolved or rejected twice; however the handlers are not otherwise
gated, and a second `success` message carrying a truthy `jwt` and a
present `exp` writes the session cache again. -/
theorem C7_claim (dec : String → Option DecodedLite) (now : Int)
    (cfg : UrlConfig) (d : SuccessData) (s : GState)
    (h1 : s.hasResolve = false) (h2 : s.hasReject = false) :
    (handleSuccess dec now cfg d s).2.resolvedWith = none ∧
    (handleSuccess dec now cfg d s).2.rejected = false ∧
    (handleError cfg s).2.rejected = false ∧
    (handleCancel cfg s).2.rejected = false ∧
    (jwtTruthy d = true → d.exp ≠ .undef →
      (handleSuccess dec now cfg d s).2.cookieWrites ≠ []) ∧
    (∀ s2 d2 dec2 now2 cfg2,
      (handleSuccess dec2 now2 cfg2 d2 s2).1.hasResolve = false ∧
      (handleSuccess dec2 now2 cfg2 d2 s2).1.hasReject = false ∧
      (handleError cfg2 s2).1.hasResolve = false ∧
      (handleError cfg2 s2).1.hasReject = false ∧
      (handleCancel cfg2 s2).1.hasResolve = false ∧
      (handleCancel cfg2 s2).1.hasReject = false) := by
  refine ⟨?_, ?_, ?_, ?_, ?_, ?_⟩
  · simp [handleSuccess, h1]
  · simp [handleSuccess, noEffects]
  · simp [handleError, noEffects, h2]
  · simp [handleCancel, noEffects, h2]
  · intro hj he
    obtain ⟨jwt, exp⟩ := d
    cases jwt with
    | none => simp [jwtTruthy] at hj
    | some j =>
      have hj2 : ¬j = "" := by simpa [jwtTruthy] using hj
      cases exp with
      | undef => simp at he
      | nullv => simp [handleSuccess, jwtTruthy, hj2]
      | num e =>
        by_cases hc : e = 0 ∨ e ≤ now <;>
          simp [handleSuccess, jwtTruthy, hj2, hc]
  · intro s2 d2 dec2 now2 cfg2
    refine ⟨?_, ?_, ?_, ?_, ?_, ?_⟩ <;>
      simp [handleSuccess, handleError, handleCancel, resetGlobals]

/-- Witness for `C7_claim` on the concrete state left behind by a
first terminal transition. -/
theorem C7_witness :
    (handleSuccess (fun _ => none) 0 noUrls { jwt := some "tok", exp := .num 9 }
      (handleError noUrls pendingState).1).2.resolvedWith = none ∧
    (handleSuccess (fun _ => none) 0 noUrls { jwt := some "tok", exp := .num 9 }
      (handleError noUrls pendingState).1).2.cookieWrites ≠ [] :=
  ⟨(C7_claim (fun _ => none) 0 noUrls { jwt := some "tok", exp := .num 9 }
      (handleError noUrls pendingState).1 (by decide) (by decide)).1,
    (C7_claim (fun _ => none) 0 noUrls { jwt := some "tok", exp := .num 9 }
      (handleError noUrls pendingState).1 (by decide) (by decide)).2.2.2.2.1
      (by decide) (by decide)⟩

/- ## Claim C8 -/

/-- Claim C8: the session-cache store operation treats `null`/`0` TTL as
a session-scoped write with no expiry attribute, a positive TTL as an
absolute expiry computed from now, and a negative (already-elapsed) TTL
exactly like `null` — the record is still written session-scoped, not
dropped and not expired. -/
theorem C8_claim (hostname : String) (https : Bool) (nowMs : Int)
    (name value : String) (e : Int) (h : e < 0) :
    setCookie hostname https nowMs name value (some e) =
      setCookie hostname https nowMs name value none ∧
    setCookie hostname https nowMs name value (some 0) =
      setCookie hostname https nowMs name value none ∧
    (setCookie hostname https nowMs name value none).expires = .session ∧
    (setCookie hostname https nowMs name value none).value = value ∧
    (∀ p : Int, 0 < p →
      (setCookie hostname https nowMs name value (some p)).expires =
        .absolute (nowMs + p * 1000)) := by
  have h1 : ¬e = 0 := by omega
  have h2 : ¬e > 0 := by omega
  refine ⟨?_, ?_, ?_, ?_, ?_⟩
  · simp [setCookie, h1, h2]
  · simp [setCookie]
  · simp [setCookie]
  · simp [setCookie]
  · intro p hp
    simp [setCookie, hp, Int.ne_of_gt hp]

/-- Witness for `C8_claim` with a concrete elapsed TTL. -/
theorem C8_witness :
    setCookie "www.example.com" true 1700000000000 "agemin_verification" "tok"
        (some (-5)) =
      setCookie "www.example.com" true 1700000000000 "agemin_verification" "tok"
        none :=
  (C8_claim "www.example.com" true 1700000000000 "agemin_verification" "tok"
    (-5) (by decide)).1

/- ## Claim C9 -/

/-- Claim C9: the classifier memo holds only the single most recent
(mode, result) pair — after `isSearchEngineBot(m1)` and then
`isSearchEngineBot(m2)` with `m2 ≠ m1`, a further `isSearchEngineBot(m1)`
call within the cache window is a cache miss (the memo now holds `m2`)
and recomputes the classification from the environment. -/
theorem C9_claim (env : BotEnv) (m1 m2 : String) (t1 t2 t3 : Int)
    (hne : m1 ≠ m2) (hfresh : t3 - t1 < CACHEDURATION) :
    (isSearchEngineBot env t2 m2
        (isSearchEngineBot env t1 m1 none).2.1).2.1 =
      some { mode := m2, result := computeBotResult env m2, timestamp := t2 } ∧
    (isSearchEngineBot env t3 m1
        (isSearchEngineBot env t2 m2
          (isSearchEngineBot env t1 m1 none).2.1).2.1).2.2 = false ∧
    (isSearchEngineBot env t3 m1
        (isSearchEngineBot env t2 m2
          (isSearchEngineBot env t1 m1 none).2.1).2.1).1 =
      computeBotResult env m1 := by
  have hc1 : (isSearchEngineBot env t1 m1 none).2.1 =
      some { mode := m1, result := computeBotResult env m1, timestamp := t1 } := by
    simp [isSearchEngineBot]
  have hc2 : (isSearchEngineBot env t2 m2
      (isSearchEngineBot env t1 m1 none).2.1).2.1 =
      some { mode := m2, result := computeBotResult env m2, timestamp := t2 } := by
    rw [hc1]
    simp [isSearchEngineBot, hne]
  refine ⟨hc2, ?_, ?_⟩ <;>
    · rw [hc2]
      simp [isSearchEngineBot, Ne.symm hne]

/-- Witness for `C9_claim`: with a Googlebot user agent, `ua` then
`headless` then `ua` again — the third call recomputes and still
classifies as a bot. -/
theorem C9_witness :
    (isSearchEngineBot
        { userAgent := some "Mozilla/5.0 (compatible; Googlebot/2.1)",
          pluginsCount := 3, languages := some ["en-US"], webgl := none,
          cookiesWork := true } 2000 "ua"
        (isSearchEngineBot
          { userAgent := some "Mozilla/5.0 (compatible; Googlebot/2.1)",
            pluginsCount := 3, languages := some ["en-US"], webgl := none,
            cookiesWork := true } 1000 "headless"
          (isSearchEngineBot
            { userAgent := some "Mozilla/5.0 (compatible; Googlebot/2.1)",
              pluginsCount := 3, languages := some ["en-US"], webgl := none,
              cookiesWork := true } 0 "ua" none).2.1).2.1).2.2 = false ∧
    (isSearchEngineBot
        { userAgent := some "Mozilla/5.0 (compatible; Googlebot/2.1)",
          pluginsCount := 3, languages := some ["en-US"], webgl := none,
          cookiesWork := true } 2000 "ua"
        (isSearchEngineBot
          { userAgent := some "Mozilla/5.0 (compatible; Googlebot/2.1)",
            pluginsCount := 3, languages := some ["en-US"], webgl := none,
            cookiesWork := true } 1000 "headless"
          (isSearchEngineBot
            { userAgent := some "Mozilla/5.0 (compatible; Googlebot/2.1)",
              pluginsCount := 3, languages := some ["en-US"], webgl := none,
              cookiesWork := true } 0 "ua" none).2.1).2.1).1 =
      computeBotResult
        { userAgent := some "Mozilla/5.0 (compatible; Googlebot/2.1)",
          pluginsCount := 3, languages := some ["en-US"], webgl := none,
          cookiesWork := true } "ua" :=
  ⟨(C9_claim _ "ua" "headless" 0 1000 2000 (by decide) (by decide)).2.1,
    (C9_claim _ "ua" "headless" 0 1000 2000 (by decide) (by decide)).2.2⟩

/- ## Claim C10 -/

/-- Claim C10: on a success message carrying a `jwt` string and a
numeric `exp`, when `decodeJWT` fails (returns null) the jwt is still
written to the session cookie, the pending promise resolves with `false`
rather than rejecting, and neither `onAgePass` nor `onAgeFail` is
invoked. -/
theorem C10_claim (dec : String → Option DecodedLite) (j : String)
    (e now : Int) (cfg : UrlConfig) (s : GState)
    (hj : j ≠ "") (hdec : dec j = none) (hres : s.hasResolve = true) :
    (∃ ttl, (handleSuccess dec now cfg { jwt := some j, exp := .num e } s).2.cookieWrites =
      [(j, ttl)]) ∧
    (handleSuccess dec now cfg { jwt := some j, exp := .num e } s).2.resolvedWith =
      some false ∧
    (handleSuccess dec now cfg { jwt := some j, exp := .num e } s).2.rejected = false ∧
    (handleSuccess dec now cfg { jwt := some j, exp := .num e } s).2.calledOnAgePass =
      false ∧
    (handleSuccess dec now cfg { jwt := some j, exp := .num e } s).2.calledOnAgeFail =
      false := by
  refine ⟨?_, ?_, ?_, ?_, ?_⟩
  · by_cases hc : e = 0 ∨ e ≤ now
    · exact ⟨none, by simp [handleSuccess, jwtTruthy, hj, hc]⟩
    · exact ⟨some (e - now), by simp [handleSuccess, jwtTruthy, hj, hc]⟩
  · simp [handleSuccess, jwtTruthy, hj, hdec, hres]
  · simp [handleSuccess, noEffects]
  · simp [handleSuccess, jwtTruthy, hj, hdec]
  · simp [handleSuccess, jwtTruthy, hj, hdec]

/-- Witness for `C10_claim` at a concrete undecodable token. -/
theorem C10_witness :
    (handleSuccess (fun _ => none) 0 noUrls { jwt := some "xx", exp := .num 50 }
      pendingState).2.resolvedWith = some false ∧
    (∃ ttl, (handleSuccess (fun _ => none) 0 noUrls
      { jwt := some "xx", exp := .num 50 } pendingState).2.cookieWrites = [("xx", ttl)]) :=
  ⟨(C10_claim (fun _ => none) "xx" 50 0 noUrls pendingState
      (by decide) rfl (by decide)).2.1,
    (C10_claim (fun _ => none) "xx" 50 0 noUrls pendingState
      (by decide) rfl (by decide)).1⟩
